import Mathlib

/-!
# Verification of the topn-worker scraping core

Shallow embedding of the scraper routing layer, the OLX and Otodom
extractors and the Monitor orchestrator of the `topn-worker` repository
(`tools/scraping/types.py`, `tools/scraping/olx.py`,
`tools/scraping/otodom.py`, `tools/monitoring/monitor.py`), together with
theorems settling the specification claims about them.

Strings are modelled by Lean `String`; the Python string primitives used
by the source (`split`, `strip`, `rstrip`, `in`, `lower`, `upper`,
`startswith`, slicing) are embedded as executable functions over the
underlying character lists, so that every theorem can be evaluated on
concrete inputs by `decide`.  Network calls, the recency-policy
collaborator (`TimeUtils.within_last_minutes`, which depends on the real
clock) and the current time are passed in explicitly; fallible Python
code is embedded in `Except String`, an uncaught Python exception being
an `Except.error` carrying the exception text.
-/

namespace TopnWorker

/-- Characters of a Python string, one split step at a time; `fuel` bounds
the recursion (callers pass the length of the scanned list, which always
suffices, so the `fuel = 0` fallback is never reached on those calls).
Models `str.split(sep)` for a non-empty separator: non-overlapping
left-to-right matches, empty pieces kept. -/
def chSplitGo (sep : List Char) : Nat → List Char → List Char → List (List Char)
  | 0, cs, cur => [cur.reverse ++ cs]
  | _ + 1, [], cur => [cur.reverse]
  | fuel + 1, c :: cs, cur =>
      if sep.isPrefixOf (c :: cs) then
        cur.reverse :: chSplitGo sep fuel ((c :: cs).drop sep.length) []
      else
        chSplitGo sep fuel cs (c :: cur)

/-- Python `s.split(sep)` for a non-empty separator `sep` (the source only
splits on the non-empty separators `"Dzisiaj o "`, `","` and `" "`). -/
def pySplit (s sep : String) : List String :=
  if sep.isEmpty then [s]
  else (chSplitGo sep.toList (s.toList.length + 1) s.toList []).map (fun l => String.mk l)

/-- Python `sub in s` on character lists. -/
def chContains (sub : List Char) : List Char → Bool
  | [] => sub.isEmpty
  | c :: cs => sub.isPrefixOf (c :: cs) || chContains sub cs

/-- Python `sub in s` (substring containment; the empty string is contained
in every string). -/
def pyIn (sub s : String) : Bool :=
  sub.isEmpty || chContains sub.toList s.toList

/-- Python `s.strip()` (whitespace stripped from both ends; modelled with
Lean's `Char.isWhitespace`, which covers the ASCII whitespace the source
data uses). -/
def pyStrip (s : String) : String :=
  String.mk (((s.toList.dropWhile Char.isWhitespace).reverse.dropWhile
    Char.isWhitespace).reverse)

/-- Python `s.rstrip(chars)` restricted to a character predicate. -/
def pyRstrip (p : Char → Bool) (s : String) : String :=
  String.mk ((s.toList.reverse.dropWhile p).reverse)

/-- Python `s.startswith(sub)`. -/
def pyStartsWith (s sub : String) : Bool :=
  sub.toList.isPrefixOf s.toList

/-- Python `s.lower()` (ASCII case folding, which covers the hosts and
markers the source compares). -/
def pyLower (s : String) : String :=
  String.mk (s.toList.map Char.toLower)

/-- Python `s.upper()` (ASCII case folding). -/
def pyUpper (s : String) : String :=
  String.mk (s.toList.map Char.toUpper)

/-- Python `s[:n]` (slicing by characters). -/
def pySlice (s : String) (n : Nat) : String :=
  String.mk (s.toList.take n)

/-- Characters admitted in a URL scheme by `urllib.parse` (letters, digits,
`+`, `-`, `.`). -/
def isSchemeChar (c : Char) : Bool :=
  c.isAlpha || c.isDigit || c == '+' || c == '-' || c == '.'

/-- Part of `urllib.parse.urlsplit`: remove a leading `scheme:` when the
text before the first colon is a syntactically valid non-empty scheme. -/
def afterScheme (cs : List Char) : List Char :=
  let pre := cs.takeWhile (fun c => c ≠ ':')
  if pre.length < cs.length && !pre.isEmpty &&
      (match pre with | c :: _ => c.isAlpha | [] => false) && pre.all isSchemeChar
  then cs.drop (pre.length + 1)
  else cs

/-- Model of `urllib.parse.urlparse(url).netloc`: after removing the
scheme, the network location is present exactly when the remainder starts
with `//`, and extends to the next `/`, `?` or `#`. -/
def netlocOf (url : String) : String :=
  match afterScheme url.toList with
  | '/' :: '/' :: rest =>
      String.mk (rest.takeWhile (fun c => c ≠ '/' && c ≠ '?' && c ≠ '#'))
  | _ => ""

/-- The `ScraperType` enumeration of `tools/scraping/types.py`. -/
inductive ScraperType where
  | olx
  | otodom
deriving DecidableEq, Repr

/-- The `StrEnum` payload of each `ScraperType` member. -/
def ScraperType.value : ScraperType → String
  | .olx => "olx"
  | .otodom => "otodom"

/-- `get_proper_scraper` of `tools/scraping/types.py`: classify a URL by
its lowercased host, `"otodom"` first, then `"olx"`, defaulting to OLX. -/
def get_proper_scraper (url : String) : ScraperType :=
  let domain := pyLower (netlocOf url)
  if pyIn "otodom" domain then ScraperType.otodom
  else if pyIn "olx" domain then ScraperType.olx
  else ScraperType.olx

/-- Decimal digits of a natural number (fuel-based so that the kernel can
evaluate it; callers pass `n + 1`, which always suffices). -/
def natDigitsGo : Nat → Nat → List Char → List Char
  | 0, _, acc => acc
  | fuel + 1, n, acc =>
      let d := Char.ofNat (48 + n % 10)
      if n < 10 then d :: acc else natDigitsGo fuel (n / 10) (d :: acc)

/-- Decimal rendering of a natural number. -/
def natToStr (n : Nat) : String :=
  String.mk (natDigitsGo (n + 1) n [])

/-- Two-digit zero padding, as in `datetime` field rendering. -/
def pad2 (n : Nat) : String :=
  if n < 10 then "0" ++ natToStr n else natToStr n

/-- Four-digit zero padding for the year field. -/
def pad4 (n : Nat) : String :=
  if n < 10 then "000" ++ natToStr n
  else if n < 100 then "00" ++ natToStr n
  else if n < 1000 then "0" ++ natToStr n
  else natToStr n

/-- A naive local timestamp, modelling the tz-stripped `datetime` values the
source stores (`datetime.replace(tzinfo=None)`); microseconds are not
carried by the claims and are left out. -/
structure DT where
  year : Nat
  month : Nat
  day : Nat
  hour : Nat
  minute : Nat
  second : Nat
deriving DecidableEq, Repr

/-- `datetime.isoformat()` of a naive timestamp without microseconds:
`YYYY-MM-DDTHH:MM:SS`. -/
def DT.isoformat (t : DT) : String :=
  pad4 t.year ++ "-" ++ pad2 t.month ++ "-" ++ pad2 t.day ++ "T" ++
    pad2 t.hour ++ ":" ++ pad2 t.minute ++ ":" ++ pad2 t.second

/-- Modelled from the spec: the `Item` record of `models.py` (the model
module itself is outside `src/`); fields follow spec section 3 and the
constructor calls in `tools/scraping/olx.py`. -/
structure Item where
  title : String
  price : String
  location : String
  created_at : Option DT
  created_at_pretty : String
  image_url : String
  item_url : String
  description : String
deriving DecidableEq, Repr

/-- The `<a>` element inside an OLX card title container: its `href`
attribute (absent attribute modelled as `none`) and its stripped text. -/
structure OlxATag where
  href : Option String
  text : String
deriving DecidableEq, Repr

/-- The OLX card title container `div[data-cy=ad-card-title]` and the first
`<a>` found inside it (`none` when `find` returns no match). -/
structure OlxTitleDiv where
  aTag : Option OlxATag
deriving DecidableEq, Repr

/-- An `<img>` inside the OLX card image container, with its optional `src`
attribute. -/
structure OlxImg where
  src : Option String
deriving DecidableEq, Repr

/-- The OLX card image container `div[data-testid=image-container]` and the
first `<img>` found inside it. -/
structure OlxImageContainer where
  img : Option OlxImg
deriving DecidableEq, Repr

/-- One OLX listing card (`div[data-testid=l-card]`), recording exactly the
pieces `OLXScraper.fetch_new_items` reads from the parsed HTML: the
stripped text of `p[data-testid=location-date]` (`none` when the element is
missing, which makes the Python `.get_text` call raise), the title
container, the stripped text of `p[data-testid=ad-price]`, and the image
container. -/
structure LCard where
  locationDate : Option String
  titleDiv : Option OlxTitleDiv
  priceText : Option String
  imageContainer : Option OlxImageContainer
deriving DecidableEq, Repr

/-- The collaborators `OLXScraper.fetch_new_items` calls, passed explicitly:
`withinLastMinutes` is the recency-policy capability
`TimeUtils.within_last_minutes` (a clock-dependent external collaborator),
`fetchDetails` is `self._fetch_item_details` (total: both its branches catch
every exception internally and return a degraded pair), and `parseTimes` is
`self._parse_times` (clock- and timezone-database-dependent; it can raise a
`ValueError` out of `strptime` on a malformed time string, hence the
`Except`). -/
structure OlxCtx where
  withinLastMinutes : String → Bool
  fetchDetails : String → String × String
  parseTimes : String → Except String (DT × String)

namespace OLXScraper

/-- URL normalization of `fetch_new_items`: `href` is kept when it starts
with `"http"`, otherwise the OLX origin is prepended. -/
def normalizeItemUrl (href : String) : String :=
  if pyStartsWith href "http" then href else "https://www.olx.pl" ++ href

/-- The pre-deduplication part of one `fetch_new_items` loop iteration:
read the location-date label (raising when the element is missing), skip
cards without the `"Dzisiaj"` marker, split off the `HH:MM` string (raising
when the unpack into two pieces fails), apply the recency policy, then
resolve the title link (raising when the container, the `<a>` or its `href`
is missing) and the absolute item URL.  `ok none` is a skip; the payload of
`ok (some _)` carries the resolved URL, the cleaned location, the time
string and the `<a>` tag for the later stages. -/
def cardKey (ctx : OlxCtx) (card : LCard) :
    Except String (Option (String × String × String × OlxATag)) :=
  match card.locationDate with
  | none => .error "AttributeError: NoneType object has no attribute get_text"
  | some location_date =>
    if pyIn "Dzisiaj" location_date = false then .ok none
    else
      match pySplit location_date "Dzisiaj o " with
      | [location0, time_str] =>
        let location := pyStrip (pyRstrip (fun c => c == '-') (pyStrip location0))
        if ctx.withinLastMinutes time_str = false then .ok none
        else
          match card.titleDiv with
          | none => .error "AttributeError: NoneType object has no attribute find"
          | some title_div =>
            match title_div.aTag with
            | none => .error "TypeError: NoneType object is not subscriptable"
            | some a_tag =>
              match a_tag.href with
              | none => .error "KeyError: href"
              | some href => .ok (some (normalizeItemUrl href, location, time_str, a_tag))
      | _ => .error "ValueError: unpack of location-date split failed"

/-- The thumbnail lookup of `fetch_new_items`: a missing image container
yields `""`, but a container without an `<img>` or an `<img>` without `src`
raises (`image_div.find("img")["src"]`). -/
def cardImage (card : LCard) : Except String String :=
  match card.imageContainer with
  | none => .ok ""
  | some ic =>
    match ic.img with
    | none => .error "TypeError: NoneType object is not subscriptable"
    | some im =>
      match im.src with
      | none => .error "KeyError: src"
      | some s => .ok s

/-- The post-deduplication part of one `fetch_new_items` loop iteration:
title text, price fallback `"Brak ceny"`, thumbnail (possibly raising),
detail fetch, high-res replacement and `_parse_times`. -/
def buildItem (ctx : OlxCtx) (card : LCard) (item_url location time_str : String)
    (a_tag : OlxATag) : Except String Item :=
  let title := a_tag.text
  let price := card.priceText.getD "Brak ceny"
  match cardImage card with
  | .error e => .error e
  | .ok image0 =>
    let pair := ctx.fetchDetails item_url
    let image_url := if pair.2 ≠ "" then pair.2 else image0
    match ctx.parseTimes time_str with
    | .error e => .error e
    | .ok tp =>
      .ok { title := title, price := price, location := location,
            created_at := some tp.1, created_at_pretty := tp.2,
            image_url := image_url, item_url := item_url,
            description := pair.1 }

/-- One full `fetch_new_items` loop iteration over a card: the pre-dedup
stage, then the `existing_urls` membership skip, then item construction. -/
def processCard (ctx : OlxCtx) (existing : List String) (card : LCard) :
    Except String (Option Item) :=
  match cardKey ctx card with
  | .error e => .error e
  | .ok none => .ok none
  | .ok (some k) =>
    if existing.contains k.1 then .ok none
    else
      match buildItem ctx card k.1 k.2.1 k.2.2.1 k.2.2.2 with
      | .error e => .error e
      | .ok it => .ok (some it)

/-- The `fetch_new_items` loop over all cards of the listing page, in
document order; an exception at any card aborts the whole call (the items
already collected are lost). -/
def goCards (ctx : OlxCtx) (existing : List String) :
    List LCard → Except String (List Item)
  | [] => .ok []
  | card :: rest =>
    match processCard ctx existing card with
    | .error e => .error e
    | .ok r =>
      match goCards ctx existing rest with
      | .error e => .error e
      | .ok items => .ok (match r with | none => items | some it => it :: items)

/-- `OLXScraper.fetch_new_items`: the listing-page fetch result (an
`Except`, since a transport failure of `self.client.get` propagates) parsed
into its `l-card` list, then the per-card loop. -/
def fetch_new_items (ctx : OlxCtx) (page : Except String (List LCard))
    (existing : List String) : Except String (List Item) :=
  match page with
  | .error e => .error e
  | .ok cards => goCards ctx existing cards

end OLXScraper

/-- Trailing digits parsed as a value (helper for the Python `int(...)`
model). -/
def digitsValGo : List Char → Nat → Option Nat
  | [], acc => some acc
  | c :: cs, acc =>
      if c.isDigit then digitsValGo cs (acc * 10 + (c.toNat - 48)) else none

/-- Python `int(s)`: surrounding whitespace stripped, one optional sign,
then a non-empty digit run; anything else raises `ValueError` (`none`
here).  The rarely used underscore digit grouping of Python literals is not
modelled. -/
def pyInt? (s : String) : Option Int :=
  let cs := ((s.toList.dropWhile Char.isWhitespace).reverse.dropWhile
    Char.isWhitespace).reverse
  match cs with
  | '-' :: ds =>
      if ds.isEmpty then none else (digitsValGo ds 0).map (fun n => -(n : Int))
  | '+' :: ds =>
      if ds.isEmpty then none else (digitsValGo ds 0).map (fun n => (n : Int))
  | ds =>
      if ds.isEmpty then none else (digitsValGo ds 0).map (fun n => (n : Int))

/-- The `<img data-testid="swiper-image...">` element of an OLX detail
page, with its optional `src` and `srcset` attributes. -/
structure SwiperImg where
  src : Option String
  srcset : Option String
deriving DecidableEq, Repr

/-- The pieces of an OLX detail page that `fetch_item_details` reads: the
stripped text of `div[data-cy=ad_description]` and the first swiper image
element. -/
structure OlxDetailSoup where
  descriptionTag : Option String
  swiperImg : Option SwiperImg
deriving DecidableEq, Repr

namespace OLXScraper

/-- `OLXScraper._extract_description`: the stripped description-container
text, or `""` when the container is missing. -/
def extractDescription (soup : OlxDetailSoup) : String :=
  soup.descriptionTag.getD ""

/-- One srcset entry parsed as in `_extract_highres_image`: the two-way
unpack of `variant.split(" ")` followed by `int(size_part.rstrip("w"))`;
either failure raises a `ValueError` that the loop catches and skips
(`none` here). -/
def parseVariant (variant : String) : Option (String × Int) :=
  match pySplit variant " " with
  | [url_part, size_part] =>
      (pyInt? (pyRstrip (fun c => c == 'w') size_part)).map
        (fun w => (url_part, w))
  | _ => none

/-- The best-candidate fold of `_extract_highres_image`: keep the candidate
whose width strictly exceeds the best width so far (initially `("", 0)`). -/
def bestVariant : List (String × Int) → String × Int → String × Int
  | [], best => best
  | (u, w) :: rest, best =>
      bestVariant rest (if w > best.2 then (u, w) else best)

/-- The srcset branch of `_extract_highres_image`: split on commas, strip
each entry, parse, and fold for the best width. -/
def extractFromSrcset (srcset : String) : String :=
  let variants := (pySplit srcset ",").map pyStrip
  (bestVariant (variants.filterMap parseVariant) ("", 0)).1

/-- `OLXScraper._extract_highres_image`: no swiper image yields `""`; a
truthy `src` attribute wins; otherwise a truthy `srcset` is parsed; the
surrounding `try` never fires in this model because every branch is total. -/
def extractHighresImage (img : Option SwiperImg) : String :=
  match img with
  | none => ""
  | some tag =>
    if tag.src.getD "" ≠ "" then tag.src.getD ""
    else
      let srcset := tag.srcset.getD ""
      if srcset ≠ "" then extractFromSrcset srcset else ""

/-- `OLXScraper.fetch_item_details`: on a successful page fetch, the
description text truncated to 500 characters (`raw_desc[:500]`) and the
extracted image; any exception out of the fetch-and-assemble step is caught
and embedded into the description, with an empty image. -/
def fetch_item_details (fetchRes : Except String OlxDetailSoup) : String × String :=
  match fetchRes with
  | .error exc => ("Failed to load description: " ++ exc, "")
  | .ok soup =>
      (pySlice (extractDescription soup) 500, extractHighresImage soup.swiperImg)

end OLXScraper

/-- Claim-side notion for C7, written from the claim's words: an absolute
URL carries `scheme://host...`, i.e. contains the `"://"` separator. -/
def specIsAbsoluteUrl (s : String) : Bool :=
  pyIn "://" s

/-- Running maximum over candidate widths (helper for the claim-side srcset
selection). -/
def maxWidth : List (String × Int) → Int → Int
  | [], m => m
  | (_, w) :: rest, m => maxWidth rest (max m w)

/-- Claim-side selection for C8, following the claim's words literally: the
URL of the (first) parsed entry attaining the maximum parsed width, or
`none` when no entry parses. -/
def specSrcsetMaxUrl (srcset : String) : Option String :=
  match ((pySplit srcset ",").map pyStrip).filterMap OLXScraper.parseVariant with
  | [] => none
  | p :: rest =>
      let m := maxWidth rest p.2
      ((p :: rest).find? (fun q => q.2 == m)).map Prod.fst

/-- Claim-side selection for the amended C8: among parsed entries, if the
maximum width is positive, the URL of the first entry attaining it,
otherwise `""`. -/
def specFirstMaxPos (parsed : List (String × Int)) : String :=
  let m := maxWidth parsed 0
  if 0 < m then ((parsed.find? (fun q => q.2 == m)).map Prod.fst).getD ""
  else ""

/-- A JSON value, as produced by `json.loads` on the `__NEXT_DATA__`
payload. -/
inductive Jv where
  | null
  | bool (b : Bool)
  | num (n : Int)
  | str (s : String)
  | arr (xs : List Jv)
  | obj (kvs : List (String × Jv))

/-- First binding of a key in a JSON object (parsed Python dicts have
unique keys). -/
def jLookup : List (String × Jv) → String → Option Jv
  | [], _ => none
  | (k, v) :: rest, key => if k == key then some v else jLookup rest key

/-- Python `value.get(key, default)`: a dict lookup with a default; calling
`.get` on any non-dict raises `AttributeError`. -/
def pyGet (v : Jv) (key : String) (default : Jv) : Except String Jv :=
  match v with
  | .obj kvs => .ok ((jLookup kvs key).getD default)
  | _ => .error "AttributeError: object has no attribute get"

/-- Python truthiness of a JSON value. -/
def jTruthy : Jv → Bool
  | .null => false
  | .bool b => b
  | .num n => n != 0
  | .str s => !s.isEmpty
  | .arr xs => !xs.isEmpty
  | .obj kvs => !kvs.isEmpty

/-- Python `key in value` for a string key: key membership on a dict,
element equality on a list, substring test on a string, `TypeError` on
anything else. -/
def pyInJv (key : String) (v : Jv) : Except String Bool :=
  match v with
  | .obj kvs => .ok (jLookup kvs key).isSome
  | .arr xs => .ok (xs.any (fun x => match x with | .str s => s == key | _ => false))
  | .str s => .ok (pyIn key s)
  | _ => .error "TypeError: argument is not iterable"

/-- Python `value[key]` for a string key: dict indexing (`KeyError` when
absent), `TypeError` on anything else. -/
def pyGetItem (v : Jv) (key : String) : Except String Jv :=
  match v with
  | .obj kvs =>
      match jLookup kvs key with
      | some x => .ok x
      | none => .error "KeyError"
  | _ => .error "TypeError: indices must be strings or integers"

/-- Scan of `html.unescape` restricted to the standard named entities the
source data uses (`&amp; &lt; &gt; &quot; &#39;`); fuel-based, one consumed
character per step at least, so the scanned length suffices as fuel. -/
def unescapeGo : Nat → List Char → List Char
  | 0, cs => cs
  | _ + 1, [] => []
  | fuel + 1, c :: cs =>
      if "&amp;".toList.isPrefixOf (c :: cs) then
        '&' :: unescapeGo fuel ((c :: cs).drop 5)
      else if "&lt;".toList.isPrefixOf (c :: cs) then
        '<' :: unescapeGo fuel ((c :: cs).drop 4)
      else if "&gt;".toList.isPrefixOf (c :: cs) then
        '>' :: unescapeGo fuel ((c :: cs).drop 4)
      else if "&quot;".toList.isPrefixOf (c :: cs) then
        '"' :: unescapeGo fuel ((c :: cs).drop 6)
      else if "&#39;".toList.isPrefixOf (c :: cs) then
        '\'' :: unescapeGo fuel ((c :: cs).drop 5)
      else c :: unescapeGo fuel cs

/-- Model of `html.unescape` on the entity subset above. -/
def htmlUnescape (s : String) : String :=
  String.mk (unescapeGo (s.toList.length + 1) s.toList)

/-- Text runs of an HTML fragment, splitting at tags (everything from `<`
to the matching `>` is a tag); fuel-based. -/
def textRunsGo : Nat → List Char → List Char → List (List Char)
  | 0, cs, cur => [cur.reverse ++ cs]
  | _ + 1, [], cur => [cur.reverse]
  | fuel + 1, c :: cs, cur =>
      if c == '<' then
        cur.reverse :: textRunsGo fuel ((cs.dropWhile (fun d => d ≠ '>')).drop 1) []
      else
        textRunsGo fuel cs (c :: cur)

/-- Model of `BeautifulSoup(...).get_text(separator="\n", strip=True)` on a
flat HTML fragment: each text run between tags is stripped, empty runs are
dropped, and the rest are joined with newlines. -/
def getTextNewlineStrip (s : String) : String :=
  let runs := (textRunsGo (s.toList.length + 1) s.toList []).map
    (fun l => pyStrip (String.mk l))
  String.intercalate "\n" (runs.filter (fun r => !r.isEmpty))

namespace OtodomScraper

/-- The image key scan of `_extract_from_next_data` over one entry: probe
`large`, `medium`, `link`, `url` in order; the first key that is present
with a string-typed value is taken (even when that string is empty) and the
inner loop breaks; non-string values fall through to the next key; a
non-dict entry raises on the membership test or the indexing. -/
def scanKeys (img : Jv) : List String → Except String String
  | [] => .ok ""
  | key :: keys =>
    match pyInJv key img with
    | .error e => .error e
    | .ok false => scanKeys img keys
    | .ok true =>
      match pyGetItem img key with
      | .error e => .error e
      | .ok (.str s) => .ok s
      | .ok _ => scanKeys img keys

/-- The entry loop of the image scan: the first entry whose key scan yields
a non-empty string wins; an empty scan result moves on to the next entry. -/
def scanEntries : List Jv → Except String String
  | [] => .ok ""
  | img :: rest =>
    match scanKeys img ["large", "medium", "link", "url"] with
    | .error e => .error e
    | .ok s => if s ≠ "" then .ok s else scanEntries rest

/-- The parse outcome of the `__NEXT_DATA__` script tag of an Otodom detail
page: `none` models a missing tag (or one without string content),
`some none` content that `json.loads` rejects, `some (some v)` content
parsing to the JSON value `v`. -/
structure OtodomSoup where
  nextData : Option (Option Jv)

/-- `OtodomScraper._extract_from_next_data`: missing tag and invalid JSON
degrade to `("", "")`; otherwise the `props → pageProps → ad` chain is
followed with empty-dict defaults, the description HTML is unescaped and
stripped to text, and the `images`-or-`photos` list is scanned for a
high-res URL.  Raises (`Except.error`) exactly where the Python would: a
`.get` on a non-dict, a non-string description, or a non-dict image entry. -/
def extractFromNextData (soup : OtodomSoup) : Except String (String × String) :=
  match soup.nextData with
  | none => .ok ("", "")
  | some none => .ok ("", "")
  | some (some data) =>
    match pyGet data "props" (.obj []) with
    | .error e => .error e
    | .ok props =>
      match pyGet props "pageProps" (.obj []) with
      | .error e => .error e
      | .ok pageProps =>
        match pyGet pageProps "ad" (.obj []) with
        | .error e => .error e
        | .ok ad =>
          match pyGet ad "description" (.str "") with
          | .error e => .error e
          | .ok descJv =>
            match descJv with
            | .str description_html =>
              let description_text :=
                getTextNewlineStrip (htmlUnescape description_html)
              match pyGet ad "images" .null with
              | .error e => .error e
              | .ok g1 =>
                match pyGet ad "photos" .null with
                | .error e => .error e
                | .ok g2 =>
                  let images := if jTruthy g1 then g1
                    else if jTruthy g2 then g2 else .arr []
                  match images with
                  | .arr xs =>
                    if xs.isEmpty then .ok (description_text, "")
                    else
                      match scanEntries xs with
                      | .error e => .error e
                      | .ok highres => .ok (description_text, highres)
                  | _ => .ok (description_text, "")
            | _ => .error "TypeError: html.unescape expects a string"

/-- The warning `_extract_from_next_data` logs, as a function of the same
input: exactly the invalid-JSON case logs `"Invalid JSON in __NEXT_DATA__"`. -/
def extractWarnings (soup : OtodomSoup) : List String :=
  match soup.nextData with
  | some none => ["Invalid JSON in __NEXT_DATA__"]
  | _ => []

/-- `httpx.Response.raise_for_status()`: raises unless the final status is
a 2xx success. -/
def raiseForStatus (status : Nat) : Except String Unit :=
  if 200 ≤ status ∧ status < 300 then .ok ()
  else .error ("HTTPStatusError: status " ++ natToStr status)

/-- `OtodomScraper.fetch_item_details`: fetch (an `Except`, carrying
transport failure), status check, extraction; any exception from these is
caught and embedded into the description with an empty image. -/
def fetch_item_details (fetchRes : Except String (Nat × OtodomSoup)) :
    String × String :=
  match (match fetchRes with
         | .error e => Except.error e
         | .ok r =>
           match raiseForStatus r.1 with
           | .error e => Except.error e
           | .ok _ => extractFromNextData r.2) with
  | .ok pair => pair
  | .error exc => ("Failed to load description: " ++ exc, "")

/-- Claim-side helper for C10: the value of the first key of the priority
list that is bound to a string in the entry, scanning keys in order and
skipping keys that are absent or bound to a non-string. -/
def firstStrKeyGo (kvs : List (String × Jv)) : List String → Option String
  | [] => none
  | k :: ks =>
    match jLookup kvs k with
    | some (.str s) => some s
    | some _ => firstStrKeyGo kvs ks
    | none => firstStrKeyGo kvs ks

/-- The highest-priority string-typed key value of an image entry, over the
priority list `large, medium, link, url`. -/
def firstStrKey (kvs : List (String × Jv)) : Option String :=
  firstStrKeyGo kvs ["large", "medium", "link", "url"]

end OtodomScraper

/-- The persistence payload `_persist_items` hands to
`db_client.create_item`, field for field. -/
structure Payload where
  item_url : String
  title : String
  price : String
  location : String
  created_at : Option String
  created_at_pretty : String
  image_url : String
  description : String
  source_url : String
  source : String
  first_seen : String
deriving DecidableEq, Repr

namespace ItemMonitor

/-- The payload construction of `ItemMonitor._persist_items` for one item:
the `source` field is the uppercased router classification of `item_url`,
`created_at` is ISO-serialized when present and `None` otherwise, and
`first_seen` is the naive current Warsaw time (`now`, passed explicitly
since it reads the clock). -/
def mkPayload (item : Item) (source_url : String) (now : DT) : Payload :=
  let scraper_type := get_proper_scraper item.item_url
  { item_url := item.item_url, title := item.title, price := item.price,
    location := item.location,
    created_at := item.created_at.map DT.isoformat,
    created_at_pretty := item.created_at_pretty,
    image_url := item.image_url, description := item.description,
    source_url := source_url, source := pyUpper scraper_type.value,
    first_seen := now.isoformat }

/-- `ItemMonitor._persist_items`: every item of the batch is turned into a
payload and attempted with `create_item` individually; `createItem` returns
`some err` when the call raised (the error is logged and the loop
continues), so the attempt list always has one entry per item. -/
def persistItems (createItem : Payload → Option String) (now : DT)
    (items : List Item) (source_url : String) : List (Payload × Option String) :=
  items.map (fun item =>
    let p := mkPayload item source_url now
    (p, createItem p))

/-- The outcome of one URL of the `run_once` loop: either the URL was
skipped because fetching its existing-item set or its new items raised
(logged, loop continues), or its new items went through `_persist_items`
with the recorded attempts. -/
inductive UrlOutcome where
  | skipped (err : String)
  | processed (attempts : List (Payload × Option String))
deriving DecidableEq, Repr

/-- The body of the per-URL loop of `ItemMonitor.run_once`: the
`try`/`except` covers `get_items_by_source_url` and `fetch_new_items`
(either failure skips this URL only); `_persist_items` runs outside the
`try` but is total. -/
def processUrl (getExisting : String → Except String (List String))
    (fetchNew : String → List String → Except String (List Item))
    (createItem : Payload → Option String) (now : DT) (url : String) :
    UrlOutcome :=
  match getExisting url with
  | .error e => .skipped e
  | .ok existing_urls =>
    match fetchNew url existing_urls with
    | .error e => .skipped e
    | .ok new_items => .processed (persistItems createItem now new_items url)

/-- `ItemMonitor.run_once`: a failure of `get_all_tasks` propagates to the
caller; otherwise the distinct task URLs are each processed independently
by the per-URL loop body. -/
def run_once (getAllTasks : Except String (List String))
    (getExisting : String → Except String (List String))
    (fetchNew : String → List String → Except String (List Item))
    (createItem : Payload → Option String) (now : DT) :
    Except String (List (String × UrlOutcome)) :=
  match getAllTasks with
  | .error e => .error e
  | .ok task_urls =>
    .ok (task_urls.dedup.map
      (fun url => (url, processUrl getExisting fetchNew createItem now url)))

end ItemMonitor

namespace OtodomScraper

/-- The `props → pageProps → ad` lookup chain of `_extract_from_next_data`,
with the empty-object defaults, as a standalone function (used to phrase
the missing-`ad` hypothesis of C5 exactly as the extraction performs it). -/
def adChain (data : Jv) : Except String Jv :=
  match pyGet data "props" (.obj []) with
  | .error e => .error e
  | .ok props =>
    match pyGet props "pageProps" (.obj []) with
    | .error e => .error e
    | .ok pageProps => pyGet pageProps "ad" (.obj [])

end OtodomScraper

/-- A fixed timestamp used by the concrete test fixtures. -/
def dtFix : DT := { year := 2025, month := 10, day := 12,
                    hour := 12, minute := 34, second := 0 }

/-- A concrete `OlxCtx` for witnesses: the recency policy accepts
everything, detail fetching returns a deterministic description with no
high-res image, and time parsing returns the fixed timestamp. -/
def ctxFix : OlxCtx :=
  { withinLastMinutes := fun _ => true,
    fetchDetails := fun u => ("desc of " ++ u, ""),
    parseTimes := fun _ => .ok (dtFix, "12.10.2025 - *12:34*") }

/-- A fully well-formed OLX listing card. -/
def cardGood : LCard :=
  { locationDate := some "Warszawa - Dzisiaj o 12:34",
    titleDiv := some { aTag := some { href := some "/oferta/1", text := "Nice flat" } },
    priceText := some "1 500 zł",
    imageContainer := some { img := some { src := some "http://img/1.jpg" } } }

/-- A malformed OLX listing card: the location-date element is missing. -/
def cardNoLabel : LCard :=
  { locationDate := none,
    titleDiv := some { aTag := some { href := some "/oferta/2", text := "Bad" } },
    priceText := none,
    imageContainer := none }

/-- An OLX listing card whose link href is the bare string `"http"` (kept
unchanged by the normalization though it is not an absolute URL). -/
def cardHrefHttp : LCard :=
  { locationDate := some "Warszawa - Dzisiaj o 12:34",
    titleDiv := some { aTag := some { href := some "http", text := "X" } },
    priceText := none,
    imageContainer := none }

/-- The `Item` that `fetch_new_items` builds from `cardGood` under
`ctxFix`. -/
def itemGoodFix : Item :=
  { title := "Nice flat", price := "1 500 zł", location := "Warszawa",
    created_at := some dtFix, created_at_pretty := "12.10.2025 - *12:34*",
    image_url := "http://img/1.jpg",
    item_url := "https://www.olx.pl/oferta/1",
    description := "desc of https://www.olx.pl/oferta/1" }

/-- The `Item` that `fetch_new_items` builds from `cardHrefHttp` under
`ctxFix`. -/
def itemHttpFix : Item :=
  { title := "X", price := "Brak ceny", location := "Warszawa",
    created_at := some dtFix, created_at_pretty := "12.10.2025 - *12:34*",
    image_url := "", item_url := "http", description := "desc of http" }

/-- A concrete image entry for the Otodom scan: the highest-priority
string-typed key `large` holds the empty string while `url` holds a real
URL. -/
def otodomImgEntry : List (String × Jv) :=
  [("large", Jv.str ""), ("url", Jv.str "http://x.jpg")]

/-- A concrete `__NEXT_DATA__` value whose only image entry is
`otodomImgEntry`. -/
def otodomDataFix : Jv :=
  Jv.obj [("props", Jv.obj [("pageProps", Jv.obj [("ad",
    Jv.obj [("images", Jv.arr [Jv.obj otodomImgEntry])])])])]

/-- A fixed `first_seen` timestamp for the Monitor fixtures. -/
def nowFix : DT := { year := 2025, month := 10, day := 12,
                     hour := 13, minute := 0, second := 0 }

/-- A concrete existing-items lookup that fails for the URL `"bad"` and
returns the empty set otherwise. -/
def gexFix : String → Except String (List String) :=
  fun url => if url == "bad" then .error "boom" else .ok []

/-- A concrete scraper call that always returns one new item. -/
def fnFix : String → List String → Except String (List Item) :=
  fun _ _ => .ok [itemGoodFix]

/-- A concrete `create_item` that always raises (every persistence attempt
fails and is logged). -/
def ciFailFix : Payload → Option String :=
  fun _ => some "db down"

end TopnWorker

namespace TopnWorker

theorem contains_append_eq (l1 l2 : List String) (u : String) :
    (l1 ++ l2).contains u = (l1.contains u || l2.contains u) := by
  induction l1 with
  | nil => simp
  | cons a l ih => simp [List.contains_cons, ih, Bool.or_assoc]

theorem contains_of_mem {l : List String} {u : String} (h : u ∈ l) :
    l.contains u = true :=
  List.elem_iff.mpr h

theorem not_mem_of_contains_false {l : List String} {u : String}
    (h : l.contains u = false) : u ∉ l :=
  fun hm => by rw [contains_of_mem hm] at h; cases h

/-- C3: `get_proper_scraper` classifies by the URL's lowercased host alone:
a host containing `"otodom"` yields the Otodom identifier, a host
containing `"olx"` (the `"otodom"` test, which the source checks first, not
applying) yields OLX, and a host containing neither falls back to OLX; two
URLs with the same host (up to case) classify identically, so the router is
a pure, total, case-insensitive function of the host. -/
theorem router_host_classification (url : String) :
    (pyIn "otodom" (pyLower (netlocOf url)) = true →
        get_proper_scraper url = ScraperType.otodom)
  ∧ (pyIn "olx" (pyLower (netlocOf url)) = true →
        pyIn "otodom" (pyLower (netlocOf url)) = false →
        get_proper_scraper url = ScraperType.olx)
  ∧ (pyIn "otodom" (pyLower (netlocOf url)) = false →
        pyIn "olx" (pyLower (netlocOf url)) = false →
        get_proper_scraper url = ScraperType.olx)
  ∧ (∀ url2 : String, pyLower (netlocOf url2) = pyLower (netlocOf url) →
        get_proper_scraper url2 = get_proper_scraper url) := by
  refine ⟨?_, ?_, ?_, ?_⟩
  · intro h
    simp [get_proper_scraper, h]
  · intro h1 h2
    simp [get_proper_scraper, h1, h2]
  · intro h1 h2
    simp [get_proper_scraper, h1, h2]
  · intro url2 h
    simp only [get_proper_scraper]
    rw [h]

/-- Witness for C3 at three concrete URLs, one per host case. -/
theorem router_host_classification_w :
    get_proper_scraper "https://www.OTODOM.pl/x" = ScraperType.otodom
  ∧ get_proper_scraper "https://www.olx.pl/oferta/1" = ScraperType.olx
  ∧ get_proper_scraper "http://example.com/a" = ScraperType.olx :=
  ⟨(router_host_classification "https://www.OTODOM.pl/x").1 (by decide),
   (router_host_classification "https://www.olx.pl/oferta/1").2.1 (by decide) (by decide),
   (router_host_classification "http://example.com/a").2.2.1 (by decide) (by decide)⟩

theorem buildItem_itemUrl {ctx : OlxCtx} {card : LCard}
    {u loc ts : String} {a : OlxATag} {it : Item}
    (h : OLXScraper.buildItem ctx card u loc ts a = .ok it) :
    it.item_url = u := by
  unfold OLXScraper.buildItem at h
  cases himg : OLXScraper.cardImage card with
  | error e => rw [himg] at h; cases h
  | ok image0 =>
    rw [himg] at h
    cases ht : ctx.parseTimes ts with
    | error e => simp only [ht] at h; cases h
    | ok tp =>
      simp only [ht] at h
      cases h
      rfl

theorem processCard_second_run {ctx : OlxCtx} {ex ex2 : List String}
    {card : LCard} {r : Option Item}
    (h : OLXScraper.processCard ctx ex card = .ok r)
    (hsub : ∀ u, ex.contains u = true → ex2.contains u = true)
    (hin : ∀ it, r = some it → ex2.contains it.item_url = true) :
    OLXScraper.processCard ctx ex2 card = .ok none := by
  unfold OLXScraper.processCard at h ⊢
  cases hk : OLXScraper.cardKey ctx card with
  | error e => rw [hk] at h; cases h
  | ok o =>
    rw [hk] at h
    cases o with
    | none => rfl
    | some k =>
      simp only [] at h ⊢
      by_cases hc : ex.contains k.1 = true
      · rw [if_pos (hsub k.1 hc)]
      · rw [if_neg hc] at h
        cases hb : OLXScraper.buildItem ctx card k.1 k.2.1 k.2.2.1 k.2.2.2 with
        | error e => rw [hb] at h; cases h
        | ok it =>
          rw [hb] at h
          cases h
          have hc2 : ex2.contains k.1 = true := by
            rw [← buildItem_itemUrl hb]; exact hin it rfl
          rw [if_pos hc2]

theorem goCards_second_run {ctx : OlxCtx} {ex ex2 : List String}
    {cards : List LCard} {items : List Item}
    (h : OLXScraper.goCards ctx ex cards = .ok items)
    (hsub : ∀ u, ex.contains u = true → ex2.contains u = true)
    (hitems : ∀ it ∈ items, ex2.contains it.item_url = true) :
    OLXScraper.goCards ctx ex2 cards = .ok [] := by
  induction cards generalizing items with
  | nil => rfl
  | cons card rest ih =>
    unfold OLXScraper.goCards at h ⊢
    cases hp : OLXScraper.processCard ctx ex card with
    | error e => rw [hp] at h; cases h
    | ok r =>
      rw [hp] at h
      cases hg : OLXScraper.goCards ctx ex rest with
      | error e => rw [hg] at h; cases h
      | ok items0 =>
        rw [hg] at h
        injection h with h
        have hmem0 : ∀ it ∈ items0, ex2.contains it.item_url = true := by
          intro it hit
          apply hitems
          rw [← h]
          cases r with
          | none => exact hit
          | some it0 => exact List.mem_cons_of_mem _ hit
        have hr2 : OLXScraper.processCard ctx ex2 card = .ok none := by
          apply processCard_second_run hp hsub
          intro it hr
          apply hitems
          rw [← h, hr]
          exact List.mem_cons_self _ _
        rw [hr2]
        rw [ih hg hmem0]

/-- C4: `fetch_new_items` is idempotent with respect to the deduplication
set: if one run over a page returns `items`, then a second run over the
same page fetch result, with every returned `item_url` added to
`existing_urls`, returns the empty list (the context, which carries the
recency policy's notion of now, is unchanged). -/
theorem olx_fetch_new_items_idempotent (ctx : OlxCtx)
    (page : Except String (List LCard)) (ex : List String) (items : List Item)
    (h : OLXScraper.fetch_new_items ctx page ex = .ok items) :
    OLXScraper.fetch_new_items ctx page
      (ex ++ items.map (fun it => it.item_url)) = .ok [] := by
  cases page with
  | error e => cases h
  | ok cards =>
    simp only [OLXScraper.fetch_new_items] at h ⊢
    apply goCards_second_run h
    · intro u hu
      rw [contains_append_eq, hu, Bool.true_or]
    · intro it hit
      have hm : (items.map (fun it => it.item_url)).contains it.item_url = true :=
        contains_of_mem (List.mem_map_of_mem _ hit)
      rw [contains_append_eq, hm, Bool.or_true]

/-- Witness for C4: the concrete good-card page yields one item on the
first run and nothing once that item's URL is in the set. -/
theorem olx_fetch_new_items_idempotent_w :
    OLXScraper.fetch_new_items ctxFix (.ok [cardGood])
      ([] ++ [itemGoodFix].map (fun it => it.item_url)) = .ok [] :=
  olx_fetch_new_items_idempotent ctxFix (.ok [cardGood]) [] [itemGoodFix] rfl

/-- Counterexample to C1 as stated: a page holding one well-formed card and
one card missing the location-date label does not skip the malformed card —
the whole page aborts with the underlying attribute error (so not even the
well-formed card's item is returned), although the listing-page fetch
itself succeeded. -/
theorem olx_malformed_card_aborts_cex :
    OLXScraper.fetch_new_items ctxFix (.ok [cardGood, cardNoLabel]) [] =
      .error "AttributeError: NoneType object has no attribute get_text" := rfl

/-- C1 (amended): `fetch_new_items` is not robust to malformed cards.  A
card missing the location-date label, the title container, the `<a>` link
or its `href`, or carrying an image container without an `<img>` `src`,
raises; the error aborts the whole page (items of other cards are lost) and
propagates to the caller.  Only a missing price element and a missing image
container are tolerated, with the `"Brak ceny"` and empty-thumbnail
fallbacks. -/
theorem olx_malformed_card_raises (ctx : OlxCtx) (ex : List String)
    (card : LCard) (rest : List LCard) :
    (∀ e, OLXScraper.processCard ctx ex card = .error e →
        OLXScraper.goCards ctx ex (card :: rest) = .error e)
  ∧ (card.locationDate = none →
        OLXScraper.processCard ctx ex card =
          .error "AttributeError: NoneType object has no attribute get_text")
  ∧ (∀ e, OLXScraper.cardKey ctx card = .error e →
        OLXScraper.processCard ctx ex card = .error e)
  ∧ (∀ ld l0 ts, card.locationDate = some ld → pyIn "Dzisiaj" ld = true →
        pySplit ld "Dzisiaj o " = [l0, ts] → ctx.withinLastMinutes ts = true →
        card.titleDiv = none →
        OLXScraper.cardKey ctx card =
          .error "AttributeError: NoneType object has no attribute find")
  ∧ (∀ ld l0 ts td, card.locationDate = some ld → pyIn "Dzisiaj" ld = true →
        pySplit ld "Dzisiaj o " = [l0, ts] → ctx.withinLastMinutes ts = true →
        card.titleDiv = some td → td.aTag = none →
        OLXScraper.cardKey ctx card =
          .error "TypeError: NoneType object is not subscriptable")
  ∧ (∀ ld l0 ts td a, card.locationDate = some ld → pyIn "Dzisiaj" ld = true →
        pySplit ld "Dzisiaj o " = [l0, ts] → ctx.withinLastMinutes ts = true →
        card.titleDiv = some td → td.aTag = some a → a.href = none →
        OLXScraper.cardKey ctx card = .error "KeyError: href")
  ∧ (∀ k ic, OLXScraper.cardKey ctx card = .ok (some k) →
        ex.contains k.1 = false → card.imageContainer = some ic →
        ic.img = none →
        OLXScraper.processCard ctx ex card =
          .error "TypeError: NoneType object is not subscriptable")
  ∧ (∀ k ic im, OLXScraper.cardKey ctx card = .ok (some k) →
        ex.contains k.1 = false → card.imageContainer = some ic →
        ic.img = some im → im.src = none →
        OLXScraper.processCard ctx ex card = .error "KeyError: src")
  ∧ (∀ k dt pretty, OLXScraper.cardKey ctx card = .ok (some k) →
        ex.contains k.1 = false → card.priceText = none →
        card.imageContainer = none →
        ctx.parseTimes k.2.2.1 = .ok (dt, pretty) →
        OLXScraper.processCard ctx ex card =
          .ok (some { title := k.2.2.2.text, price := "Brak ceny",
                      location := k.2.1, created_at := some dt,
                      created_at_pretty := pretty,
                      image_url := if (ctx.fetchDetails k.1).2 ≠ "" then
                          (ctx.fetchDetails k.1).2 else "",
                      item_url := k.1,
                      description := (ctx.fetchDetails k.1).1 })) := by
  refine ⟨?_, ?_, ?_, ?_, ?_, ?_, ?_, ?_, ?_⟩
  · intro e h
    simp [OLXScraper.goCards, h]
  · intro h
    simp [OLXScraper.processCard, OLXScraper.cardKey, h]
  · intro e h
    simp [OLXScraper.processCard, h]
  · intro ld l0 ts h1 h2 h3 h4 h5
    simp [OLXScraper.cardKey, h1, h2, h3, h4, h5]
  · intro ld l0 ts td h1 h2 h3 h4 h5 h6
    simp [OLXScraper.cardKey, h1, h2, h3, h4, h5, h6]
  · intro ld l0 ts td a h1 h2 h3 h4 h5 h6 h7
    simp [OLXScraper.cardKey, h1, h2, h3, h4, h5, h6, h7]
  · intro k ic h1 h2 h3 h4
    simp [OLXScraper.processCard, OLXScraper.buildItem, OLXScraper.cardImage,
      h1, h2, h3, h4]
    exact not_mem_of_contains_false h2
  · intro k ic im h1 h2 h3 h4 h5
    simp [OLXScraper.processCard, OLXScraper.buildItem, OLXScraper.cardImage,
      h1, h2, h3, h4, h5]
    exact not_mem_of_contains_false h2
  · intro k dt pretty h1 h2 h3 h4 h5
    simp [OLXScraper.processCard, OLXScraper.buildItem, OLXScraper.cardImage,
      h1, h2, h3, h4, h5]
    exact not_mem_of_contains_false h2

/-- Witness for the amended C1 at concrete cards: the label-less card
raises and aborts a page that also holds a well-formed card, and the card
without price and image container is tolerated with the fallbacks. -/
theorem olx_malformed_card_raises_w :
    OLXScraper.processCard ctxFix [] cardNoLabel =
      .error "AttributeError: NoneType object has no attribute get_text"
  ∧ OLXScraper.goCards ctxFix [] (cardNoLabel :: [cardGood]) =
      .error "AttributeError: NoneType object has no attribute get_text"
  ∧ OLXScraper.processCard ctxFix [] cardHrefHttp = .ok (some itemHttpFix) :=
  ⟨(olx_malformed_card_raises ctxFix [] cardNoLabel []).2.1 rfl,
   (olx_malformed_card_raises ctxFix [] cardNoLabel [cardGood]).1 _
     ((olx_malformed_card_raises ctxFix [] cardNoLabel [cardGood]).2.1 rfl),
   (olx_malformed_card_raises ctxFix [] cardHrefHttp []).2.2.2.2.2.2.2.2
     ("http", "Warszawa", "12:34", { href := some "http", text := "X" })
     dtFix "12.10.2025 - *12:34*" rfl rfl rfl rfl rfl⟩

theorem startsWith_olx_prepend (t : String) :
    pyStartsWith ("https://www.olx.pl" ++ t) "http" = true := by
  unfold pyStartsWith
  have h2 : ("https://www.olx.pl" ++ t).toList =
      "https://www.olx.pl".toList ++ t.toList := by
    simp [String.toList, String.data_append]
  rw [h2]
  exact List.isPrefixOf_iff_prefix.mpr
    (List.IsPrefix.trans (by decide) (List.prefix_append _ _))

theorem normalizeItemUrl_startsWith (href : String) :
    pyStartsWith (OLXScraper.normalizeItemUrl href) "http" = true := by
  unfold OLXScraper.normalizeItemUrl
  by_cases h : pyStartsWith href "http" = true
  · rw [if_pos h]; exact h
  · rw [if_neg h]; exact startsWith_olx_prepend href

theorem cardKey_some_normalized {ctx : OlxCtx} {card : LCard}
    {k : String × String × String × OlxATag}
    (h : OLXScraper.cardKey ctx card = .ok (some k)) :
    ∃ href, k.1 = OLXScraper.normalizeItemUrl href := by
  unfold OLXScraper.cardKey at h
  cases hld : card.locationDate with
  | none => rw [hld] at h; cases h
  | some ld =>
    rw [hld] at h
    simp only [] at h
    by_cases hdz : pyIn "Dzisiaj" ld = false
    · rw [if_pos hdz] at h; cases h
    · rw [if_neg hdz] at h
      cases hsp : pySplit ld "Dzisiaj o " with
      | nil => rw [hsp] at h; cases h
      | cons l0 tl =>
        cases tl with
        | nil => rw [hsp] at h; cases h
        | cons ts tl2 =>
          cases tl2 with
          | nil =>
            rw [hsp] at h
            simp only [] at h
            by_cases hw : ctx.withinLastMinutes ts = false
            · rw [if_pos hw] at h; cases h
            · rw [if_neg hw] at h
              cases htd : card.titleDiv with
              | none => rw [htd] at h; cases h
              | some td =>
                rw [htd] at h
                simp only [] at h
                cases hat : td.aTag with
                | none => rw [hat] at h; cases h
                | some a =>
                  rw [hat] at h
                  simp only [] at h
                  cases hhr : a.href with
                  | none => rw [hhr] at h; cases h
                  | some href =>
                    rw [hhr] at h
                    simp only [] at h
                    injection h with h
                    injection h with h
                    exact ⟨href, by rw [← h]⟩
          | cons c tl3 => rw [hsp] at h; cases h

theorem processCard_some_startsWith {ctx : OlxCtx} {ex : List String}
    {card : LCard} {it : Item}
    (h : OLXScraper.processCard ctx ex card = .ok (some it)) :
    pyStartsWith it.item_url "http" = true := by
  unfold OLXScraper.processCard at h
  cases hk : OLXScraper.cardKey ctx card with
  | error e => rw [hk] at h; cases h
  | ok o =>
    rw [hk] at h
    cases o with
    | none => cases h
    | some k =>
      simp only [] at h
      by_cases hc : ex.contains k.1 = true
      · rw [if_pos hc] at h; cases h
      · rw [if_neg hc] at h
        cases hb : OLXScraper.buildItem ctx card k.1 k.2.1 k.2.2.1 k.2.2.2 with
        | error e => rw [hb] at h; cases h
        | ok it0 =>
          rw [hb] at h
          cases h
          obtain ⟨href, hhref⟩ := cardKey_some_normalized hk
          rw [buildItem_itemUrl hb, hhref]
          exact normalizeItemUrl_startsWith href

theorem goCards_ok_startsWith {ctx : OlxCtx} {ex : List String}
    {cards : List LCard} {items : List Item}
    (h : OLXScraper.goCards ctx ex cards = .ok items) :
    ∀ it ∈ items, pyStartsWith it.item_url "http" = true := by
  induction cards generalizing items with
  | nil =>
    injection h with h
    rw [← h]
    intro it hit
    cases hit
  | cons card rest ih =>
    unfold OLXScraper.goCards at h
    cases hp : OLXScraper.processCard ctx ex card with
    | error e => rw [hp] at h; cases h
    | ok r =>
      rw [hp] at h
      cases hg : OLXScraper.goCards ctx ex rest with
      | error e => rw [hg] at h; cases h
      | ok items0 =>
        rw [hg] at h
        injection h with h
        intro it hit
        rw [← h] at hit
        cases r with
        | none => exact ih hg it hit
        | some it0 =>
          cases hit with
          | head => exact processCard_some_startsWith hp
          | tail _ hmem => exact ih hg it hmem

/-- Counterexample to C7 as stated: a card whose href is the bare string
`"http"` passes the `startswith("http")` test, so it is kept unchanged and
the returned `item_url` is `"http"`, which is not an absolute URL (it has
no `scheme://` part). -/
theorem olx_item_url_not_absolute_cex :
    OLXScraper.fetch_new_items ctxFix (.ok [cardHrefHttp]) [] = .ok [itemHttpFix]
  ∧ specIsAbsoluteUrl itemHttpFix.item_url = false :=
  ⟨rfl, rfl⟩

/-- C7 (amended): every `item_url` returned by `fetch_new_items` starts
with `"http"`: an href already starting with `"http"` is kept unchanged,
and any other href is prefixed with the canonical origin
`https://www.olx.pl` (in particular `/oferta/1` becomes
`https://www.olx.pl/oferta/1`); hrefs such as `"http"` itself show the kept
value need not be an absolute URL. -/
theorem olx_item_url_always_http (ctx : OlxCtx)
    (page : Except String (List LCard)) (ex : List String) (items : List Item) :
    (∀ href, pyStartsWith href "http" = true →
        OLXScraper.normalizeItemUrl href = href)
  ∧ (∀ href, pyStartsWith href "http" = false →
        OLXScraper.normalizeItemUrl href = "https://www.olx.pl" ++ href)
  ∧ OLXScraper.normalizeItemUrl "/oferta/1" = "https://www.olx.pl/oferta/1"
  ∧ (OLXScraper.fetch_new_items ctx page ex = .ok items →
        ∀ it ∈ items, pyStartsWith it.item_url "http" = true) := by
  refine ⟨?_, ?_, ?_, ?_⟩
  · intro href h
    unfold OLXScraper.normalizeItemUrl
    rw [if_pos h]
  · intro href h
    unfold OLXScraper.normalizeItemUrl
    rw [if_neg (by rw [h]; exact Bool.false_ne_true)]
  · rfl
  · intro h
    cases page with
    | error e => cases h
    | ok cards => exact goCards_ok_startsWith h

/-- Witness for the amended C7: the relative href example and the one item
of the concrete good-card run. -/
theorem olx_item_url_always_http_w :
    OLXScraper.normalizeItemUrl "/oferta/1" = "https://www.olx.pl/oferta/1"
  ∧ pyStartsWith itemGoodFix.item_url "http" = true :=
  ⟨(olx_item_url_always_http ctxFix (.ok [cardGood]) [] [itemGoodFix]).2.2.1,
   (olx_item_url_always_http ctxFix (.ok [cardGood]) [] [itemGoodFix]).2.2.2 rfl
     itemGoodFix (List.mem_singleton.mpr rfl)⟩

/-- C6: `OLXScraper.fetch_item_details` is total: a successful fetch yields
the description-container text truncated to at most 500 characters together
with the extracted image, an exception out of the fetch-and-assemble step
yields a description embedding the exception text with an empty image, and
the low-level helpers return `""` (rather than raising) when the
description container, the swiper image, or its `src`/`srcset` attributes
are missing. -/
theorem olx_fetch_item_details_total (soup : OlxDetailSoup) (e : String) :
    OLXScraper.fetch_item_details (.ok soup) =
      (pySlice (OLXScraper.extractDescription soup) 500,
       OLXScraper.extractHighresImage soup.swiperImg)
  ∧ (OLXScraper.fetch_item_details (.ok soup)).1.length ≤ 500
  ∧ OLXScraper.fetch_item_details (.error e) =
      ("Failed to load description: " ++ e, "")
  ∧ OLXScraper.extractDescription
      { descriptionTag := none, swiperImg := soup.swiperImg } = ""
  ∧ OLXScraper.extractHighresImage none = ""
  ∧ OLXScraper.extractHighresImage (some { src := none, srcset := none }) = "" := by
  refine ⟨rfl, ?_, rfl, rfl, rfl, rfl⟩
  show (pySlice (OLXScraper.extractDescription soup) 500).length ≤ 500
  have h : (pySlice (OLXScraper.extractDescription soup) 500).length =
      ((OLXScraper.extractDescription soup).toList.take 500).length := rfl
  rw [h, List.length_take]
  exact min_le_left _ _

theorem maxWidth_ge (l : List (String × Int)) (m : Int) : m ≤ maxWidth l m := by
  induction l generalizing m with
  | nil => simp [maxWidth]
  | cons p rest ih =>
    obtain ⟨u, w⟩ := p
    simp only [maxWidth]
    exact le_trans (le_max_left m w) (ih (max m w))

theorem find?_maxWidth_isSome (l : List (String × Int)) (m : Int)
    (h : m < maxWidth l m) :
    (l.find? (fun q => q.2 == maxWidth l m)).isSome = true := by
  induction l generalizing m with
  | nil => simp [maxWidth] at h
  | cons p rest ih =>
    obtain ⟨u, w⟩ := p
    simp only [maxWidth] at h ⊢
    by_cases hd : (w == maxWidth rest (max m w)) = true
    · simp [List.find?_cons, hd]
    · have hd2 : (w == maxWidth rest (max m w)) = false := by
        rw [← Bool.not_eq_true]; exact hd
      simp only [List.find?_cons, hd2]
      apply ih
      rcases lt_or_eq_of_le (maxWidth_ge rest (max m w)) with hlt | heq
      · exact hlt
      · exfalso
        rcases max_choice m w with hm | hm
        · have hmm : m = maxWidth rest (max m w) := hm.symm.trans heq
          rw [← hmm] at h
          exact lt_irrefl m h
        · exact hd (beq_iff_eq.mpr (hm.symm.trans heq))

theorem bestVariant_eq (l : List (String × Int)) (bu : String) (bw : Int) :
    OLXScraper.bestVariant l (bu, bw) =
      (if bw < maxWidth l bw
       then (l.find? (fun q => q.2 == maxWidth l bw)).getD (bu, bw)
       else (bu, bw)) := by
  induction l generalizing bu bw with
  | nil => simp [OLXScraper.bestVariant, maxWidth]
  | cons p rest ih =>
    obtain ⟨u, w⟩ := p
    simp only [OLXScraper.bestVariant, maxWidth]
    by_cases hw : bw < w
    · rw [if_pos (show w > bw from hw)]
      have hmax : max bw w = w := max_eq_right (le_of_lt hw)
      rw [hmax, ih]
      by_cases hw2 : w < maxWidth rest w
      · rw [if_pos hw2, if_pos (lt_trans hw hw2)]
        have hne : (w == maxWidth rest w) = false := by
          simp; exact ne_of_lt hw2
        simp only [List.find?_cons, hne]
        have hs := find?_maxWidth_isSome rest w hw2
        cases ho : rest.find? (fun q => q.2 == maxWidth rest w) with
        | none => simp [ho] at hs
        | some q => rfl
      · rw [if_neg hw2]
        have heq : maxWidth rest w = w :=
          le_antisymm (not_lt.mp hw2) (maxWidth_ge rest w)
        rw [heq, if_pos hw]
        simp [List.find?_cons]
    · rw [if_neg (show ¬w > bw from hw)]
      have hmax : max bw w = bw := max_eq_left (not_lt.mp hw)
      rw [hmax, ih]
      by_cases hcond : bw < maxWidth rest bw
      · rw [if_pos hcond, if_pos hcond]
        have hne : (w == maxWidth rest bw) = false := by
          simp; exact ne_of_lt (lt_of_le_of_lt (not_lt.mp hw) hcond)
        simp only [List.find?_cons, hne]
      · rw [if_neg hcond, if_neg hcond]

theorem bestVariant_firstMaxPos (parsed : List (String × Int)) :
    (OLXScraper.bestVariant parsed ("", 0)).1 = specFirstMaxPos parsed := by
  rw [bestVariant_eq]
  unfold specFirstMaxPos
  by_cases h : (0 : Int) < maxWidth parsed 0
  · rw [if_pos h, if_pos h]
    cases ho : parsed.find? (fun q => q.2 == maxWidth parsed 0) with
    | none => rfl
    | some q => rfl
  · rw [if_neg h, if_neg h]

/-- Counterexample to C8 as stated: the well-formed srcset entry
`http://a.jpg 0w` parses to width `0`, which never beats the initial best
width `0`, so the code returns `""` while the claim-side maximum-width
selection returns `http://a.jpg`. -/
theorem srcset_zero_width_cex :
    OLXScraper.extractFromSrcset "http://a.jpg 0w" = ""
  ∧ specSrcsetMaxUrl "http://a.jpg 0w" = some "http://a.jpg" :=
  ⟨rfl, rfl⟩

/-- C8 (amended): srcset entries are split on commas, parsed as
`<url> <width>w`, and malformed entries are discarded without raising;
among the parsed entries, if the maximum width is positive the URL of the
first entry attaining it is returned, and otherwise (in particular when
every parsed width is zero or negative) the empty string is returned; on
`http://a.jpg 200w, http://b.jpg 800w` the result is `http://b.jpg`, and a
malformed entry mixed with a valid one leaves the valid one selected. -/
theorem srcset_first_max_positive (srcset : String) :
    OLXScraper.extractFromSrcset srcset =
      specFirstMaxPos
        (((pySplit srcset ",").map pyStrip).filterMap OLXScraper.parseVariant)
  ∧ OLXScraper.extractFromSrcset "http://a.jpg 200w, http://b.jpg 800w" =
      "http://b.jpg"
  ∧ OLXScraper.extractFromSrcset "invalid format, http://good.jpg 800w" =
      "http://good.jpg"
  ∧ OLXScraper.extractHighresImage
      (some ⟨none, some "http://a.jpg 200w, http://b.jpg 800w"⟩) = "http://b.jpg" :=
  ⟨bestVariant_firstMaxPos _, rfl, rfl, rfl⟩

theorem scanKeys_obj (kvs : List (String × Jv)) (ks : List String) :
    OtodomScraper.scanKeys (Jv.obj kvs) ks =
      .ok ((OtodomScraper.firstStrKeyGo kvs ks).getD "") := by
  induction ks with
  | nil => rfl
  | cons k rest ih =>
    cases hl : jLookup kvs k with
    | none =>
      simp [OtodomScraper.scanKeys, OtodomScraper.firstStrKeyGo, pyInJv, hl, ih]
    | some v =>
      cases v <;>
        simp [OtodomScraper.scanKeys, OtodomScraper.firstStrKeyGo, pyInJv,
          pyGetItem, hl, ih]

/-- C10: the per-entry key scan of the Otodom image extraction takes the
value of the highest-priority string-typed key even when that value is the
empty string (lower-priority keys of the same entry are never used), in
which case the entry contributes nothing and the scan moves on to the next
entry; in particular an entry `{large: "", url: "http://x.jpg"}` makes the
whole extraction yield `""` rather than `"http://x.jpg"`. -/
theorem otodom_scan_empty_string_stops (kvs : List (String × Jv))
    (rest : List Jv) :
    OtodomScraper.scanKeys (Jv.obj kvs) ["large", "medium", "link", "url"] =
      .ok ((OtodomScraper.firstStrKey kvs).getD "")
  ∧ (OtodomScraper.firstStrKey kvs = some "" →
      OtodomScraper.scanEntries (Jv.obj kvs :: rest) =
        OtodomScraper.scanEntries rest)
  ∧ OtodomScraper.scanEntries [Jv.obj otodomImgEntry] = .ok ""
  ∧ OtodomScraper.extractFromNextData ⟨some (some otodomDataFix)⟩ =
      .ok ("", "") := by
  refine ⟨scanKeys_obj kvs _, ?_, rfl, rfl⟩
  intro h
  have hs : OtodomScraper.scanKeys (Jv.obj kvs) ["large", "medium", "link", "url"] =
      .ok "" := by
    rw [scanKeys_obj kvs _]
    rw [show OtodomScraper.firstStrKeyGo kvs ["large", "medium", "link", "url"] =
      some "" from h]
    rfl
  simp [OtodomScraper.scanEntries, hs]

/-- Witness for C10 at the concrete entry: the scan passes over the entry
whose `large` is `""`, and the concrete `__NEXT_DATA__` extraction yields
an empty image despite the entry's `url` field. -/
theorem otodom_scan_empty_string_stops_w :
    OtodomScraper.scanEntries (Jv.obj otodomImgEntry :: []) =
      OtodomScraper.scanEntries []
  ∧ OtodomScraper.extractFromNextData ⟨some (some otodomDataFix)⟩ =
      .ok ("", "") :=
  ⟨(otodom_scan_empty_string_stops otodomImgEntry []).2.1 rfl,
   (otodom_scan_empty_string_stops otodomImgEntry []).2.2.2⟩

/-- C5: `OtodomScraper.fetch_item_details` never raises: with a successful
2xx fetch, a missing `__NEXT_DATA__` script tag, invalid JSON (which also
logs the distinguishable warning), or an `ad` object absent from the
`props → pageProps → ad` chain each degrade to `("", "")`; a transport
failure or a non-2xx status (surfaced by `raise_for_status`) is caught and
embedded into the returned description together with an empty image URL. -/
theorem otodom_fetch_item_details_degrades (st : Nat)
    (soup : OtodomScraper.OtodomSoup) (e : String) (data : Jv) :
    (200 ≤ st → st < 300 → soup.nextData = none →
        OtodomScraper.fetch_item_details (.ok (st, soup)) = ("", ""))
  ∧ (200 ≤ st → st < 300 → soup.nextData = some none →
        OtodomScraper.fetch_item_details (.ok (st, soup)) = ("", "")
      ∧ OtodomScraper.extractWarnings soup = ["Invalid JSON in __NEXT_DATA__"])
  ∧ (200 ≤ st → st < 300 → soup.nextData = some (some data) →
        OtodomScraper.adChain data = .ok (Jv.obj []) →
        OtodomScraper.fetch_item_details (.ok (st, soup)) = ("", ""))
  ∧ OtodomScraper.fetch_item_details (.error e) =
      ("Failed to load description: " ++ e, "")
  ∧ (¬(200 ≤ st ∧ st < 300) →
        OtodomScraper.fetch_item_details (.ok (st, soup)) =
          ("Failed to load description: " ++
            ("HTTPStatusError: status " ++ natToStr st), "")) := by
  refine ⟨?_, ?_, ?_, rfl, ?_⟩
  · intro h1 h2 h3
    simp [OtodomScraper.fetch_item_details, OtodomScraper.raiseForStatus,
      OtodomScraper.extractFromNextData, h1, h2, h3]
  · intro h1 h2 h3
    constructor
    · simp [OtodomScraper.fetch_item_details, OtodomScraper.raiseForStatus,
        OtodomScraper.extractFromNextData, h1, h2, h3]
    · simp [OtodomScraper.extractWarnings, h3]
  · intro h1 h2 h3 hchain
    unfold OtodomScraper.adChain at hchain
    cases hp : pyGet data "props" (.obj []) with
    | error e2 => rw [hp] at hchain; cases hchain
    | ok props =>
      rw [hp] at hchain
      simp only [] at hchain
      cases hpp : pyGet props "pageProps" (.obj []) with
      | error e2 => rw [hpp] at hchain; cases hchain
      | ok pageProps =>
        rw [hpp] at hchain
        simp only [] at hchain
        unfold OtodomScraper.fetch_item_details
        simp only []
        unfold OtodomScraper.raiseForStatus
        rw [if_pos ⟨h1, h2⟩]
        unfold OtodomScraper.extractFromNextData
        rw [h3]
        simp only []
        rw [hp]
        simp only []
        rw [hpp]
        simp only []
        rw [hchain]
        rfl
  · intro h
    simp [OtodomScraper.fetch_item_details, OtodomScraper.raiseForStatus, h]

/-- Witness for C5 at concrete inputs, one per degradation mode. -/
theorem otodom_fetch_item_details_degrades_w :
    OtodomScraper.fetch_item_details (.ok (200, ⟨none⟩)) = ("", "")
  ∧ OtodomScraper.fetch_item_details (.ok (200, ⟨some none⟩)) = ("", "")
  ∧ OtodomScraper.fetch_item_details (.ok (200, ⟨some (some (Jv.obj []))⟩)) =
      ("", "")
  ∧ OtodomScraper.fetch_item_details (.error "boom") =
      ("Failed to load description: boom", "")
  ∧ OtodomScraper.fetch_item_details (.ok (404, ⟨none⟩)) =
      ("Failed to load description: " ++
        ("HTTPStatusError: status " ++ natToStr 404), "") :=
  ⟨(otodom_fetch_item_details_degrades 200 ⟨none⟩ "boom" (Jv.obj [])).1
      (by decide) (by decide) rfl,
   ((otodom_fetch_item_details_degrades 200 ⟨some none⟩ "boom" (Jv.obj [])).2.1
      (by decide) (by decide) rfl).1,
   (otodom_fetch_item_details_degrades 200 ⟨some (some (Jv.obj []))⟩ "boom"
      (Jv.obj [])).2.2.1 (by decide) (by decide) rfl rfl,
   (otodom_fetch_item_details_degrades 200 ⟨none⟩ "boom" (Jv.obj [])).2.2.2.1,
   (otodom_fetch_item_details_degrades 404 ⟨none⟩ "x" (Jv.obj [])).2.2.2.2
      (by decide)⟩

/-- C2: in one `run_once` cycle, a failure fetching a URL's existing-item
set or its new items turns into a `skipped` outcome for that URL only — the
loop still produces one outcome per distinct task URL and the cycle result
stays `ok`; and `_persist_items` attempts every item of the batch exactly
once (the attempt list is the full payload list), regardless of individual
`create_item` failures. -/
theorem run_once_isolation (gEx : String → Except String (List String))
    (fN : String → List String → Except String (List Item))
    (cI : Payload → Option String) (now : DT) (urls : List String) :
    ItemMonitor.run_once (.ok urls) gEx fN cI now =
      .ok (urls.dedup.map
        (fun url => (url, ItemMonitor.processUrl gEx fN cI now url)))
  ∧ (∀ url e, gEx url = .error e →
      ItemMonitor.processUrl gEx fN cI now url = .skipped e)
  ∧ (∀ url ex e, gEx url = .ok ex → fN url ex = .error e →
      ItemMonitor.processUrl gEx fN cI now url = .skipped e)
  ∧ (∀ items su, (ItemMonitor.persistItems cI now items su).map Prod.fst =
      items.map (fun it => ItemMonitor.mkPayload it su now)) := by
  refine ⟨rfl, ?_, ?_, ?_⟩
  · intro url e h
    simp [ItemMonitor.processUrl, h]
  · intro url ex e h1 h2
    simp [ItemMonitor.processUrl, h1, h2]
  · intro items su
    simp [ItemMonitor.persistItems, List.map_map]

/-- Witness for C2: with a concrete lookup that fails for URL `"bad"`, that
URL is skipped while the cycle still yields one outcome per URL, and the
always-failing `create_item` still sees one attempt per item. -/
theorem run_once_isolation_w :
    ItemMonitor.processUrl gexFix fnFix ciFailFix nowFix "bad" = .skipped "boom"
  ∧ ItemMonitor.run_once (.ok ["bad", "good"]) gexFix fnFix ciFailFix nowFix =
      .ok ((["bad", "good"] : List String).dedup.map
        (fun url => (url, ItemMonitor.processUrl gexFix fnFix ciFailFix nowFix url)))
  ∧ (ItemMonitor.persistItems ciFailFix nowFix [itemGoodFix] "http://olx").map
        Prod.fst =
      [itemGoodFix].map (fun it => ItemMonitor.mkPayload it "http://olx" nowFix) :=
  ⟨(run_once_isolation gexFix fnFix ciFailFix nowFix ["bad", "good"]).2.1
      "bad" "boom" rfl,
   (run_once_isolation gexFix fnFix ciFailFix nowFix ["bad", "good"]).1,
   (run_once_isolation gexFix fnFix ciFailFix nowFix ["bad", "good"]).2.2.2
      [itemGoodFix] "http://olx"⟩

/-- C9: for every Item of a `_persist_items` batch, whichever extractor
produced it, the constructed payload's `source` equals the uppercased
router classification of the Item's `item_url`, its `source_url` is the
task URL being processed, its `created_at` is the ISO-8601 serialization of
the Item's timestamp when present and `None` when absent, and the item's
payload is attempted in the batch. -/
theorem persist_payload_fields (cI : Payload → Option String) (now : DT)
    (su : String) (items : List Item) (item : Item) (h : item ∈ items) :
    (ItemMonitor.mkPayload item su now).source =
      pyUpper (get_proper_scraper item.item_url).value
  ∧ (ItemMonitor.mkPayload item su now).source_url = su
  ∧ (ItemMonitor.mkPayload item su now).created_at =
      item.created_at.map DT.isoformat
  ∧ (item.created_at = none → (ItemMonitor.mkPayload item su now).created_at = none)
  ∧ (∀ dt, item.created_at = some dt →
      (ItemMonitor.mkPayload item su now).created_at = some (DT.isoformat dt))
  ∧ (ItemMonitor.mkPayload item su now, cI (ItemMonitor.mkPayload item su now)) ∈
      ItemMonitor.persistItems cI now items su := by
  refine ⟨rfl, rfl, rfl, ?_, ?_, ?_⟩
  · intro hn
    simp [ItemMonitor.mkPayload, hn]
  · intro dt hdt
    simp [ItemMonitor.mkPayload, hdt]
  · exact List.mem_map_of_mem _ h

/-- Witness for C9 at the concrete fixture item: the OLX URL classifies to
source `"OLX"`, the task URL is attached, and the timestamp serializes to
ISO-8601. -/
theorem persist_payload_fields_w :
    (ItemMonitor.mkPayload itemGoodFix "http://olx" nowFix).source = "OLX"
  ∧ (ItemMonitor.mkPayload itemGoodFix "http://olx" nowFix).source_url =
      "http://olx"
  ∧ (ItemMonitor.mkPayload itemGoodFix "http://olx" nowFix).created_at =
      some "2025-10-12T12:34:00" :=
  ⟨((persist_payload_fields ciFailFix nowFix "http://olx" [itemGoodFix]
      itemGoodFix (List.mem_singleton.mpr rfl)).1).trans (by rfl),
   (persist_payload_fields ciFailFix nowFix "http://olx" [itemGoodFix]
      itemGoodFix (List.mem_singleton.mpr rfl)).2.1,
   ((persist_payload_fields ciFailFix nowFix "http://olx" [itemGoodFix]
      itemGoodFix (List.mem_singleton.mpr rfl)).2.2.2.2.1 dtFix rfl).trans
     (by rfl)⟩

end TopnWorker
